import Mathlib

/-!
Shallow embedding of the session core of `vocab-tui` (src/main.rs and
src/ollama_driver.rs) and proofs of its specified properties.

The core is the `App` struct of main.rs: a phase tag `State`
(`Input` / `Processing` / `Review`), an input buffer, a display word,
and a `SlowState` record holding the latest committed score and
explanation.  The interactive operations (`on_next`, `on_review`,
`on_key`, `on_retry`, and the `Delete` / `Backspace` key handlers of
`main`) are embedded as pure functions on an `App` record; the spawned
scoring-completion closure (main.rs lines 99-108) is embedded as
`App.complete`.

The `f64` score is only ever stored and copied by the session core
(never computed on), so it is modelled as a rational number.
-/

namespace VocabTui

/-- Model of `f64` for values the core only stores and copies. -/
abbrev Score := ℚ

/-- `enum State` of main.rs: the session phase. `Processing` is the spec's
`Scoring` phase and `Review` the spec's `Reviewed` phase. -/
inductive State where
  | Input
  | Processing
  | Review
deriving DecidableEq, Repr

/-- `State::is_input` of main.rs. -/
def State.is_input : State → Bool
  | .Input => true
  | _ => false

/-- `struct SlowState` of main.rs: the latest committed explanation and score. -/
structure SlowState where
  explanation : String
  score : Score
deriving DecidableEq, Repr

/-- The mutable fields of `struct App` of main.rs that the session core
touches: the phase (behind its own `RwLock` in the source), the input
buffer, the displayed prompt word, and the shared score/explanation
record (behind a second `RwLock` in the source). -/
structure App where
  state : State
  input : String
  display : String
  shared_state : SlowState
deriving DecidableEq, Repr

/-- The data captured by the scoring task spawned in `App::on_review`:
clones of the input buffer and of the displayed word. -/
structure ScoringTask where
  input : String
  logit : String
deriving DecidableEq, Repr

/-- `App::new` of main.rs; the word returned by `state_machine.generate()`
is passed in as `generated`. -/
def App.new (generated : String) : App :=
  { state := .Input
    input := ""
    display := generated
    shared_state := { explanation := "", score := 0 } }

/-- `App::on_next` of main.rs (the spec's `advance`): clears the buffer,
replaces the displayed word by a fresh `generate()` result (passed in as
`generated`), clears the shared score/explanation, and sets the phase to
`Input`.  No phase guard. -/
def App.on_next (a : App) (generated : String) : App :=
  { a with input := ""
           display := generated
           shared_state := { explanation := "", score := 0 }
           state := .Input }

/-- `App::on_review` of main.rs (the spec's `submit`): a no-op unless the
phase is `Input`; otherwise captures clones of the buffer and the
displayed word, sets the phase to `Processing`, and spawns the scoring
task, returned here as the second component. -/
def App.on_review (a : App) : App × Option ScoringTask :=
  if !a.state.is_input then (a, none)
  else ({ a with state := .Processing },
        some { input := a.input, logit := a.display })

/-- The body of the closure spawned by `App::on_review` (main.rs lines
99-108), run when `state_machine.process` resolves with `result`.  The
source `unwrap`s the result: on `Err` the spawned task panics before
touching any state, modelled by returning the state unchanged.  On `Ok`
it locks the phase, and only if the phase is still `Processing` writes
the score and explanation and moves the phase to `Review`. -/
def App.complete (a : App) (result : Except String (Score × String)) : App :=
  match result with
  | .error _ => a
  | .ok (score, explanation) =>
    match a.state with
    | .Processing =>
      { a with shared_state := { score := score, explanation := explanation }
               state := .Review }
    | _ => a

/-- `App::on_key` of main.rs (the spec's `append`): a no-op unless the
phase is `Input`; otherwise pushes the character onto the buffer. -/
def App.on_key (a : App) (c : Char) : App :=
  if !a.state.is_input then a else { a with input := a.input.push c }

/-- `App::on_retry` of main.rs (the spec's `retry`): clears the buffer,
clears the shared score/explanation, and sets the phase to `Input`,
leaving the displayed word unchanged.  No phase guard. -/
def App.on_retry (a : App) : App :=
  { a with input := ""
           shared_state := { explanation := "", score := 0 }
           state := .Input }

/-- The `Delete` key handler of `main` (main.rs line 257), the spec's
`clear_input`: `app.input.clear()` with no phase guard. -/
def App.on_delete (a : App) : App :=
  { a with input := "" }

/-- The `Backspace` key handler of `main` (main.rs lines 262-266), the
spec's `erase_last`: pops the last character of the buffer, only when
the phase is `Input`. -/
def App.on_backspace (a : App) : App :=
  if a.state.is_input then { a with input := a.input.dropRight 1 } else a

/-! ### Critical-section decomposition of `on_next`

`App` keeps the phase and the score/explanation record in two separate
`RwLock`s.  `on_next` touches them in three separately-locked pieces:
first the main-thread-local fields (buffer and display, no lock), then
the shared record under its own lock, then the phase under the phase
lock.  The completion closure holds the phase lock across its whole
check-then-write, so it is a single atomic step relative to these. -/

/-- First piece of `App::on_next`: `input.clear()` and the `display`
assignment, main-thread-local, under no lock. -/
def App.next_local (a : App) (generated : String) : App :=
  { a with input := "", display := generated }

/-- Second piece of `App::on_next`: clearing the shared record under the
`shared_state` lock (main.rs lines 75-81). -/
def App.next_shared (a : App) : App :=
  { a with shared_state := { explanation := "", score := 0 } }

/-- Third piece of `App::on_next`: the phase write under the `state`
lock (main.rs line 82). -/
def App.next_phase (a : App) : App :=
  { a with state := .Input }

/-- The three pieces compose to `on_next` when run without interleaving. -/
theorem on_next_decomposition (a : App) (g : String) :
    a.on_next g = ((a.next_local g).next_shared).next_phase := rfl

/-- Model of `SliceRandom::choose` from ollama_driver.rs: `None` on an
empty slice, otherwise some element of the slice; the RNG draw is
modelled by the index `r`. -/
def choose (l : List String) (r : Nat) : Option String :=
  if h : 0 < l.length then some (l.get ⟨r % l.length, Nat.mod_lt r h⟩)
  else none

/-- `OllamaDriver::generate` of ollama_driver.rs:
`wordlist.choose(&mut rng).unwrap()`.  The `unwrap` panic on an empty
wordlist is modelled by the `none` result. -/
def generate (wordlist : List String) (r : Nat) : Option String :=
  choose wordlist r

/-! ### Helper lemmas -/

/-- The completion closure changes nothing unless the phase is still
`Processing` when it acquires the phase lock. -/
theorem complete_of_ne_processing (a : App) (r : Except String (Score × String))
    (h : a.state ≠ State.Processing) : a.complete r = a := by
  obtain ⟨st, i, d, sh⟩ := a
  cases r with
  | error e => rfl
  | ok p =>
    obtain ⟨s, e⟩ := p
    cases st with
    | Input => rfl
    | Processing => exact absurd rfl h
    | Review => rfl

/-! ### The claims -/

/-- Claim C1, guarded commit (supersession): after `submit`, if `advance`
or `retry` runs before the scoring task's completion, the eventual
completion leaves the whole session state (phase included) exactly as
`advance`/`retry` set it; in general the completion applies its result
only when it finds the phase still `Processing`. -/
theorem guarded_commit (a : App) (g : String)
    (r : Except String (Score × String)) :
    (((a.on_review).1.on_next g).complete r = (a.on_review).1.on_next g) ∧
    (((a.on_review).1.on_retry).complete r = (a.on_review).1.on_retry) ∧
    (∀ b : App, b.state ≠ State.Processing → b.complete r = b) := by
  refine ⟨?_, ?_, fun b hb => complete_of_ne_processing b r hb⟩
  · exact complete_of_ne_processing _ r (by simp [App.on_next])
  · exact complete_of_ne_processing _ r (by simp [App.on_retry])

/-- Witness for C1 at a concrete run: submit from a fresh session, then
advance, then a stale successful completion; also the guard clause at a
concrete non-`Processing` state. -/
theorem guarded_commit_witness :
    ((((App.new "apple").on_review).1.on_next "banana").complete
        (Except.ok (73/100, "stale")) = ((App.new "apple").on_review).1.on_next "banana") ∧
    ((App.new "apple").state ≠ State.Processing ∧
      (App.new "apple").complete (Except.ok (73/100, "stale")) = App.new "apple") :=
  ⟨(guarded_commit (App.new "apple") "banana" (Except.ok (73/100, "stale"))).1,
   by decide,
   (guarded_commit (App.new "apple") "banana" (Except.ok (73/100, "stale"))).2.2
     (App.new "apple") (by decide)⟩

/-- Claim C2, happy path: from phase `Input`, `submit` moves the phase to
`Processing` and captures the buffer and the prompt; a successful
completion arriving while the phase is still `Processing` moves the
phase to `Review` with exactly the returned score and explanation. -/
theorem happy_path (a : App) (h : a.state = State.Input) (s : Score) (e : String) :
    (a.on_review).1.state = State.Processing ∧
    (a.on_review).2 = some { input := a.input, logit := a.display } ∧
    ((a.on_review).1.complete (Except.ok (s, e))).state = State.Review ∧
    ((a.on_review).1.complete (Except.ok (s, e))).shared_state.score = s ∧
    ((a.on_review).1.complete (Except.ok (s, e))).shared_state.explanation = e := by
  obtain ⟨st, i, d, sh⟩ := a
  simp only at h
  subst h
  exact ⟨rfl, rfl, rfl, rfl, rfl⟩

/-- Witness for C2: the spec's concrete run — start with "apple", type
"good", submit, complete with `(0.73, "close enough")`. -/
theorem happy_path_witness :
    (((((App.new "apple").on_key 'g').on_key 'o').on_key 'o').on_key 'd').state
        = State.Input ∧
    ((((((App.new "apple").on_key 'g').on_key 'o').on_key 'o').on_key 'd').on_review).2
        = some { input := "good", logit := "apple" } ∧
    (((((((App.new "apple").on_key 'g').on_key 'o').on_key 'o').on_key 'd').on_review).1.complete
        (Except.ok (73/100, "close enough"))).state = State.Review ∧
    (((((((App.new "apple").on_key 'g').on_key 'o').on_key 'o').on_key 'd').on_review).1.complete
        (Except.ok (73/100, "close enough"))).shared_state.score = 73/100 ∧
    (((((((App.new "apple").on_key 'g').on_key 'o').on_key 'o').on_key 'd').on_review).1.complete
        (Except.ok (73/100, "close enough"))).shared_state.explanation = "close enough" :=
  ⟨rfl,
   (happy_path ((((((App.new "apple").on_key 'g').on_key 'o').on_key 'o').on_key 'd'))
      rfl (73/100) "close enough").2.1,
   (happy_path ((((((App.new "apple").on_key 'g').on_key 'o').on_key 'o').on_key 'd'))
      rfl (73/100) "close enough").2.2.1,
   (happy_path ((((((App.new "apple").on_key 'g').on_key 'o').on_key 'o').on_key 'd'))
      rfl (73/100) "close enough").2.2.2.1,
   (happy_path ((((((App.new "apple").on_key 'g').on_key 'o').on_key 'o').on_key 'd'))
      rfl (73/100) "close enough").2.2.2.2⟩

/-- Claim C3, backend-failure contract: a completion carrying an error
leaves the session state exactly unchanged (the task panics on `unwrap`
before writing anything, so nothing is corrupted), and the session is
never stuck: `retry` and `advance` carry no phase guard, so from the
resulting state (phase `Processing` included) either one returns the
phase to `Input` where the user can act. -/
theorem backend_failure (a : App) (e : String) (g : String) :
    a.complete (Except.error e) = a ∧
    ((a.complete (Except.error e)).on_retry).state = State.Input ∧
    ((a.complete (Except.error e)).on_next g).state = State.Input :=
  ⟨rfl, rfl, rfl⟩

/-- Counterexample to claim C4 as stated: in phase `Processing` with a
non-empty buffer, the `Delete` key handler (the spec's `clear_input`,
main.rs line 257) carries no phase guard and empties the buffer, so it
is not a no-op. -/
theorem input_closure_counterexample :
    (({ state := State.Processing, input := "g", display := "apple",
        shared_state := { explanation := "", score := 0 } } : App).state
          = State.Processing) ∧
    ({ state := State.Processing, input := "g", display := "apple",
       shared_state := { explanation := "", score := 0 } } : App).on_delete
        ≠ { state := State.Processing, input := "g", display := "apple",
            shared_state := { explanation := "", score := 0 } } := by
  refine ⟨rfl, fun h => ?_⟩
  have : ("" : String) = "g" := congrArg App.input h
  exact absurd this (by decide)

/-- Claim C4 as amended: when the phase is `Processing` or `Review`,
`append` (`on_key`) and `erase_last` (the guarded `Backspace` handler)
are no-ops; `clear_input` (the unguarded `Delete` handler) empties the
buffer in every phase and changes nothing else. -/
theorem input_closure (a : App) (c : Char)
    (h : a.state = State.Processing ∨ a.state = State.Review) :
    a.on_key c = a ∧ a.on_backspace = a ∧
    a.on_delete = { a with input := "" } := by
  obtain ⟨st, i, d, sh⟩ := a
  simp only at h
  rcases h with h | h <;> subst h <;> exact ⟨rfl, rfl, rfl⟩

/-- Witness for C4 (amended) at a concrete `Review`-phase state. -/
theorem input_closure_witness :
    (({ state := State.Review, input := "good", display := "apple",
        shared_state := { explanation := "fine", score := 1 } } : App).state
          = State.Processing ∨
     ({ state := State.Review, input := "good", display := "apple",
        shared_state := { explanation := "fine", score := 1 } } : App).state
          = State.Review) ∧
    (({ state := State.Review, input := "good", display := "apple",
        shared_state := { explanation := "fine", score := 1 } } : App).on_key 'x'
        = { state := State.Review, input := "good", display := "apple",
            shared_state := { explanation := "fine", score := 1 } } ∧
     ({ state := State.Review, input := "good", display := "apple",
        shared_state := { explanation := "fine", score := 1 } } : App).on_backspace
        = { state := State.Review, input := "good", display := "apple",
            shared_state := { explanation := "fine", score := 1 } } ∧
     ({ state := State.Review, input := "good", display := "apple",
        shared_state := { explanation := "fine", score := 1 } } : App).on_delete
        = { state := State.Review, input := "", display := "apple",
            shared_state := { explanation := "fine", score := 1 } }) :=
  ⟨Or.inr rfl,
   input_closure
     { state := State.Review, input := "good", display := "apple",
       shared_state := { explanation := "fine", score := 1 } } 'x' (Or.inr rfl)⟩

/-- Claim C5, single live task: a second `submit` issued while the phase
is already `Processing` performs no transition and spawns no task. -/
theorem single_live_task (a : App) (h : a.state = State.Input) :
    ((a.on_review).1).state = State.Processing ∧
    ((a.on_review).1).on_review = ((a.on_review).1, none) := by
  obtain ⟨st, i, d, sh⟩ := a
  simp only at h
  subst h
  exact ⟨rfl, rfl⟩

/-- Witness for C5 from a fresh session. -/
theorem single_live_task_witness :
    (App.new "apple").state = State.Input ∧
    (((App.new "apple").on_review).1).state = State.Processing ∧
    (((App.new "apple").on_review).1).on_review = (((App.new "apple").on_review).1, none) :=
  ⟨rfl, (single_live_task (App.new "apple") rfl).1,
        (single_live_task (App.new "apple") rfl).2⟩

/-- Claim C6, retry preserves the prompt and advance replaces it: from
any phase, `retry` yields phase `Input` with an empty buffer, the same
displayed word, and the committed score/explanation cleared; `advance`
yields the same but with the new word. -/
theorem retry_preserves_advance_replaces (a : App) (g : String) :
    a.on_retry = { state := State.Input, input := "", display := a.display,
                   shared_state := { explanation := "", score := 0 } } ∧
    a.on_next g = { state := State.Input, input := "", display := g,
                    shared_state := { explanation := "", score := 0 } } :=
  ⟨rfl, rfl⟩

/-- Counterexample to claim C7 as stated: the phase tag and the
score/explanation record live in two separate `RwLock`s, and `on_next`
resets the shared record and writes the phase in two separately-locked
critical sections.  In the interleaving where the stale completion's
single critical section runs between them, the completion's stale score
and explanation overwrite the reset and survive into the final state
(whose phase is `Input`), so the advance's write of the shared session
state is silently overwritten. -/
theorem atomic_commit_counterexample :
    (({ state := State.Processing, input := "good", display := "apple",
        shared_state := { explanation := "", score := 0 } } : App).on_next "banana"
      = (((({ state := State.Processing, input := "good", display := "apple",
              shared_state := { explanation := "", score := 0 } } : App).next_local
            "banana").next_shared).next_phase)) ∧
    (((((({ state := State.Processing, input := "good", display := "apple",
            shared_state := { explanation := "", score := 0 } } : App).next_local
          "banana").next_shared).complete
            (Except.ok (73/100, "stale explanation"))).next_phase).state
        = State.Input) ∧
    (((((({ state := State.Processing, input := "good", display := "apple",
            shared_state := { explanation := "", score := 0 } } : App).next_local
          "banana").next_shared).complete
            (Except.ok (73/100, "stale explanation"))).next_phase).shared_state
        = { explanation := "stale explanation", score := 73/100 }) :=
  ⟨rfl, rfl, rfl⟩

/-- Claim C7 as amended: the completion's check-then-write is itself one
critical section under the phase lock, so in every interleaving of a
stale successful completion with the three critical sections of
`advance` the final phase is exactly the `Input` phase that `advance`
set, and a completion scheduled after `advance`'s phase write is
discarded entirely; when the completion runs before the shared-record
reset, the reset also wins.  Only its stale score/explanation written
between `advance`'s shared-record reset and phase write survive (the
interleaving of the counterexample). -/
theorem atomic_commit_amended (a : App) (g : String) (s : Score) (e : String) :
    ((((a.complete (Except.ok (s, e))).next_local g).next_shared).next_phase).state
        = State.Input ∧
    (((((a.next_local g).complete (Except.ok (s, e))).next_shared).next_phase).state
        = State.Input) ∧
    (((((a.next_local g).next_shared).complete (Except.ok (s, e))).next_phase).state
        = State.Input) ∧
    ((((a.next_local g).next_shared).next_phase).complete (Except.ok (s, e))
        = (((a.next_local g).next_shared).next_phase)) ∧
    ((((a.complete (Except.ok (s, e))).next_local g).next_shared).next_phase).shared_state
        = { explanation := "", score := 0 } ∧
    (((((a.next_local g).complete (Except.ok (s, e))).next_shared).next_phase).shared_state
        = { explanation := "", score := 0 }) := by
  refine ⟨rfl, rfl, rfl, ?_, rfl, rfl⟩
  exact complete_of_ne_processing _ _ (by simp [App.next_local, App.next_shared, App.next_phase])

/-- Claim C8, prompt constancy: `append`, `erase_last`, `clear_input`,
`submit`, `complete` and `retry` never change the displayed word; only
`advance` replaces it, and `App::new` sets it initially. -/
theorem prompt_constancy (a : App) (c : Char) (g : String)
    (r : Except String (Score × String)) :
    (a.on_key c).display = a.display ∧
    (a.on_backspace).display = a.display ∧
    (a.on_delete).display = a.display ∧
    ((a.on_review).1).display = a.display ∧
    (a.complete r).display = a.display ∧
    (a.on_retry).display = a.display ∧
    (a.on_next g).display = g ∧
    (App.new g).display = g := by
  obtain ⟨st, i, d, sh⟩ := a
  rcases r with e | ⟨s, ex⟩ <;> cases st <;>
    exact ⟨rfl, rfl, rfl, rfl, rfl, rfl, rfl, rfl⟩

/-- Claim C9, backspace boundary: in phase `Input` with an empty buffer,
the `Backspace` handler leaves the whole state unchanged (in the source,
`String::pop` on an empty string is a no-op returning `None`; no panic). -/
theorem backspace_boundary (a : App)
    (h1 : a.state = State.Input) (h2 : a.input = "") :
    a.on_backspace = a := by
  obtain ⟨st, i, d, sh⟩ := a
  simp only at h1 h2
  subst h1
  subst h2
  rfl

/-- Witness for C9 at a fresh session. -/
theorem backspace_boundary_witness :
    (App.new "apple").state = State.Input ∧
    (App.new "apple").input = "" ∧
    (App.new "apple").on_backspace = App.new "apple" :=
  ⟨rfl, rfl, backspace_boundary (App.new "apple") rfl rfl⟩

/-- Claim C10, word selection precondition: `OllamaDriver::generate`
unwraps the result of a random `choose` on the wordlist, so it panics
(modelled `none`) for the empty wordlist and, for every non-empty
wordlist and every RNG draw, returns some element of the list. -/
theorem generate_spec (l : List String) (r : Nat) (h : l ≠ []) :
    (∀ k : Nat, generate [] k = none) ∧
    ∃ w, generate l r = some w ∧ w ∈ l := by
  have hl : 0 < l.length := List.length_pos.mpr h
  constructor
  · intro k; rfl
  · refine ⟨l.get ⟨r % l.length, Nat.mod_lt r hl⟩, ?_, List.get_mem l _ _⟩
    simp [generate, choose, hl]

/-- Witness for C10 on a concrete two-word list. -/
theorem generate_spec_witness :
    (["apple", "banana"] : List String) ≠ [] ∧
    ((∀ k : Nat, generate [] k = none) ∧
      ∃ w, generate ["apple", "banana"] 5 = some w ∧ w ∈ ["apple", "banana"]) :=
  ⟨by decide, generate_spec ["apple", "banana"] 5 (by decide)⟩

end VocabTui
